import Mathlib

set_option maxRecDepth 10000

set_option exponentiation.threshold 1200

/-!
Verification of the visit scheduling, estimate and invoice logic of the
client-site application (src/app/routes/visits.py, estimates.py,
invoices.py).  The data store is modelled as plain lists of records;
each route handler is embedded as a pure function from the store (and
the request parameters) to the updated store.  Dates are modelled as
integer day numbers (the only date operations used by the code are
comparison and adding a number of days), and monetary amounts as
rationals (the code only copies, compares to zero, multiplies by fixed
decimal constants and sums them, all of which are exact in binary64
for the documented values).
-/

namespace ClientSite

/-- Row of the visits table, with the fields the scheduling code reads
and writes.  Python truthiness of nullable columns is modelled with
Option. -/
structure Visit where
  id : Nat
  client_id : Nat
  user_id : Nat
  estimate_id : Option Nat
  scheduled_date : Int
  status : String
  is_recurring : Bool
  recurring_frequency : Option String
  price : Option ℚ
  invoice_id : Option Nat
  completion_notes : Option String
  completed_at : Option Int
deriving DecidableEq, Repr

/-- Python truthiness of a nullable string: None and the empty string
are falsy. -/
def pyTruthyStr : Option String → Bool
  | none => false
  | some s => !(s == "")

/-- Python truthiness of a nullable numeric column: None and 0 are
falsy. -/
def pyTruthyPrice : Option ℚ → Bool
  | none => false
  | some p => if p = 0 then false else true

/-- Embeds get_interval_days (visits.py lines 312-321): days between
visits for a recurrence frequency, 0 for anything unrecognised. -/
def get_interval_days (frequency : String) : Nat :=
  if frequency = "weekly" then 7
  else if frequency = "biweekly" then 14
  else if frequency = "monthly" then 30
  else 0

/-- Row dict built by the recurring branch of schedule_visits
(lines 134-144) and by maintain_rolling_window (lines 358-367):
status scheduled, recurring flag set, given frequency and price.
The scheduled_time column is not modelled (no claim mentions it). -/
def make_recurring_visit (client_id user_id : Nat) (estimate_id : Option Nat)
    (frequency : String) (price : Option ℚ) (d : Int) : Visit :=
  { id := 0
    client_id := client_id
    user_id := user_id
    estimate_id := estimate_id
    scheduled_date := d
    status := "scheduled"
    is_recurring := true
    recurring_frequency := some frequency
    price := price
    invoice_id := none
    completion_notes := none
    completed_at := none }

/-- Loop shared by the recurring branch of schedule_visits (append a
visit at the current date, then advance by the interval, lines
133-145) and by the generation loop of maintain_rolling_window
(lines 356-368); the fuel argument is the number of visits still to
generate. -/
def generate_recurring_visits (client_id user_id : Nat) (estimate_id : Option Nat)
    (frequency : String) (price : Option ℚ) (interval : Nat) :
    Int → Nat → List Visit
  | _, 0 => []
  | current, Nat.succ n =>
      make_recurring_visit client_id user_id estimate_id frequency price current ::
        generate_recurring_visits client_id user_id estimate_id frequency price
          interval (current + interval) n

/-- Filter used by the replenishment query (visits.py lines 329-337):
same client and owner, status scheduled, recurring flag true,
scheduled_date at or after today. -/
def is_future_scheduled_recurring (user_id client_id : Nat) (today : Int)
    (v : Visit) : Bool :=
  v.client_id == client_id && v.user_id == user_id &&
    v.status == "scheduled" && v.is_recurring &&
    decide (today ≤ v.scheduled_date)

/-- Rows returned by the replenishment query, before ordering. -/
def future_scheduled_recurring (visits : List Visit) (user_id client_id : Nat)
    (today : Int) : List Visit :=
  visits.filter (is_future_scheduled_recurring user_id client_id today)

/-- Insertion step of the descending sort modelling an order-by
descending clause. -/
def insert_desc_by (key : α → Int) (a : α) : List α → List α
  | [] => [a]
  | b :: l => if key b ≤ key a then a :: b :: l else b :: insert_desc_by key a l

/-- Descending sort by an integer key, modelling an order-by
descending clause of the data-access interface. -/
def sort_desc_by (key : α → Int) : List α → List α
  | [] => []
  | a :: l => insert_desc_by key a (sort_desc_by key l)

/-- Embeds maintain_rolling_window (visits.py lines 324-371): query the
future scheduled recurring visits of the client ordered by date
descending; return the store unchanged when there are already 8 or
more; otherwise anchor at the latest such date (today when none),
carry the price forward from the latest future visit when no price
was supplied and that price is truthy, and append visits advancing by
the interval until existing plus new reach 8. -/
def maintain_rolling_window (visits : List Visit) (user_id client_id : Nat)
    (estimate_id : Option Nat) (frequency : String) (price : Option ℚ)
    (today : Int) : List Visit :=
  let future_visits :=
    sort_desc_by (fun v => v.scheduled_date)
      (future_scheduled_recurring visits user_id client_id today)
  if 8 ≤ future_visits.length then visits
  else
    let last_date : Int :=
      match future_visits.head? with
      | some v => v.scheduled_date
      | none => today
    let price2 : Option ℚ :=
      match future_visits.head? with
      | some v => if price.isNone && pyTruthyPrice v.price then v.price else price
      | none => price
    let interval := get_interval_days frequency
    visits ++ generate_recurring_visits client_id user_id estimate_id frequency
      price2 interval (last_date + interval) (8 - future_visits.length)

/-- Status update performed by complete_visit (visits.py lines
211-215): set status completed, store the notes and the completion
timestamp on the row matching the visit id and the owner. -/
def mark_visit_completed (visits : List Visit) (user_id visit_id : Nat)
    (notes : Option String) (now : Int) : List Visit :=
  visits.map (fun w =>
    if w.id = visit_id ∧ w.user_id = user_id then
      { w with status := "completed", completion_notes := notes,
               completed_at := some now }
    else w)

/-- Embeds complete_visit (visits.py lines 186-235): fetch the visit
by id and owner, mark it completed, and run the rolling-window
replenishment exactly when the recurrence flag is set and the
frequency column is truthy. -/
def complete_visit (visits : List Visit) (user_id visit_id : Nat)
    (notes : Option String) (now today : Int) : List Visit :=
  match (visits.filter (fun v => v.id == visit_id && v.user_id == user_id)).head? with
  | none => visits
  | some visit =>
      let updated := mark_visit_completed visits user_id visit_id notes now
      if visit.is_recurring && pyTruthyStr visit.recurring_frequency then
        maintain_rolling_window updated user_id visit.client_id
          visit.estimate_id (visit.recurring_frequency.getD "") visit.price
          today
      else updated

/-- Groups of characters between occurrences of a separator, the
splitting used by the Python str.split with a one-character
separator. -/
def split_on_char (c : Char) : List Char → List (List Char)
  | [] => [[]]
  | a :: rest =>
      let r := split_on_char c rest
      if a == c then [] :: r
      else
        match r with
        | [] => [[a]]
        | g :: gs => (a :: g) :: gs

/-- Value of a list of decimal digit characters. -/
def digits_to_nat (cs : List Char) : Nat :=
  cs.foldl (fun n c => n * 10 + (c.toNat - 48)) 0

/-- Check for a nonempty all-digit character list. -/
def is_digit_chars (cs : List Char) : Bool :=
  !cs.isEmpty && cs.all (fun c => c.isDigit)

/-- Whitespace stripping at both ends, the Python str.strip. -/
def trim_chars (cs : List Char) : List Char :=
  ((cs.dropWhile (fun c => c.isWhitespace)).reverse.dropWhile
    (fun c => c.isWhitespace)).reverse

/-- Models int applied to a plain optionally signed digit string, the
parse inside generate_invoice_number. -/
def parse_int_py (cs : List Char) : Option Int :=
  match cs with
  | '-' :: rest =>
      if is_digit_chars rest then some (-(digits_to_nat rest : Int)) else none
  | '+' :: rest =>
      if is_digit_chars rest then some (digits_to_nat rest : Int) else none
  | _ => if is_digit_chars cs then some (digits_to_nat cs : Int) else none

/-- Value of a Python float as far as the application observes it:
finite value, signed infinity, or NaN.  Truthiness is the only
numeric test applied to a parsed price, so a finite value is carried
as an exact rational. -/
inductive PyFloat where
  | finite (q : ℚ)
  | infinite (neg : Bool)
  | nan
deriving DecidableEq, Repr

/-- Python truthiness of an optional float: None and 0.0 are falsy,
every other value, including the infinities and NaN, is truthy. -/
def pyTruthyFloat : Option PyFloat → Bool
  | none => false
  | some (PyFloat.finite q) => if q = 0 then false else true
  | some (PyFloat.infinite _) => true
  | some PyFloat.nan => true

/-- Value built by the Decimal constructor: a finite exact value, a
signed infinity, a quiet NaN, or a signaling NaN (the last two may
carry a digit payload, which the application never reads). -/
inductive DecNum where
  | finite (q : ℚ)
  | infinite (neg : Bool)
  | quietNaN
  | signalingNaN
deriving DecidableEq, Repr

/-- Split at the first exponent indicator e or E, when present. -/
def split_on_exp : List Char → List Char × Option (List Char)
  | [] => ([], none)
  | c :: rest =>
      if c == 'e' ∨ c == 'E' then ([], some rest)
      else
        let r := split_on_exp rest
        (c :: r.1, r.2)

/-- Unsigned decimal-part of the Decimal grammar: digits, digits dot,
digits dot digits, or dot digits. -/
def parse_mantissa (cs : List Char) : Option ℚ :=
  match split_on_char '.' cs with
  | [ip] => if is_digit_chars ip then some (digits_to_nat ip : ℚ) else none
  | [ip, fp] =>
      if (ip.all (fun c => c.isDigit)) && (fp.all (fun c => c.isDigit)) &&
          !(ip.isEmpty && fp.isEmpty) then
        some ((digits_to_nat ip : ℚ) +
          (digits_to_nat fp : ℚ) / (10 : ℚ) ^ fp.length)
      else none
  | _ => none

/-- Models the Decimal constructor of decimal.Decimal on a string:
leading and trailing whitespace and underscores anywhere are removed,
then an optional sign followed by either a case-insensitive Infinity
or Inf, a case-insensitive NaN or sNaN with an optional digit
payload, or a decimal-part with an optional e or E exponent-part
carrying an optionally signed digit exponent.  Anything else raises
InvalidOperation, modelled as none. -/
def parse_decimal_chars (cs0 : List Char) : Option DecNum :=
  let cs := trim_chars (cs0.filter (fun c => !(c == '_')))
  let signed : Bool × List Char :=
    match cs with
    | '-' :: r => (true, r)
    | '+' :: r => (false, r)
    | r => (false, r)
  let neg := signed.1
  let body := signed.2
  let lower := body.map Char.toLower
  if lower = "infinity".toList ∨ lower = "inf".toList then
    some (DecNum.infinite neg)
  else if (match lower with
    | 'n' :: 'a' :: 'n' :: t => t.all (fun c => c.isDigit)
    | _ => false) then
    some DecNum.quietNaN
  else if (match lower with
    | 's' :: 'n' :: 'a' :: 'n' :: t => t.all (fun c => c.isDigit)
    | _ => false) then
    some DecNum.signalingNaN
  else
    match split_on_exp body with
    | (mant, none) =>
        match parse_mantissa mant with
        | some q => some (DecNum.finite (if neg then -q else q))
        | none => none
    | (mant, some ex) =>
        match parse_mantissa mant, parse_int_py ex with
        | some q, some e =>
            some (DecNum.finite ((if neg then -q else q) * (10 : ℚ) ^ e))
        | _, _ => none

/-- Check that a magnitude converts to a binary64 infinity: values of
magnitude at least 2^1024 - 2^970 round to infinity under
round-half-even (the comparison is carried out on the numerator and
denominator to stay in integer arithmetic). -/
def float_overflows (q : ℚ) : Bool :=
  (2 ^ 1024 - 2 ^ 970 : Nat) * q.den ≤ q.num.natAbs

/-- Check that a magnitude converts to binary64 zero: values of
magnitude at most 2^-1075 round to 0.0 under round-half-even. -/
def float_underflows_to_zero (q : ℚ) : Bool :=
  q.num.natAbs * 2 ^ 1075 ≤ q.den

/-- Models float applied to a Decimal value: huge magnitudes convert
to the matching infinity, tiny magnitudes to 0.0, the infinities and
quiet NaN carry over, and a signaling NaN raises ValueError (none).
Within the normal range the exact rational stands for the correctly
rounded float; the rounding preserves zero-ness, which is the only
property of a finite price the application observes. -/
def float_of_decimal : DecNum → Option PyFloat
  | DecNum.finite q =>
      if float_overflows q then some (PyFloat.infinite (decide (q < 0)))
      else if float_underflows_to_zero q then some (PyFloat.finite 0)
      else some (PyFloat.finite q)
  | DecNum.infinite neg => some (PyFloat.infinite neg)
  | DecNum.quietNaN => some PyFloat.nan
  | DecNum.signalingNaN => none

/-- Leap year rule of the proleptic Gregorian calendar used by the
Python date type. -/
def is_leap_year (y : Nat) : Bool :=
  y % 4 == 0 && (y % 100 != 0 || y % 400 == 0)

/-- Length of a month in the proleptic Gregorian calendar. -/
def days_in_month (y m : Nat) : Nat :=
  if m = 2 then (if is_leap_year y then 29 else 28)
  else if m = 4 ∨ m = 6 ∨ m = 9 ∨ m = 11 then 30
  else 31

/-- Models datetime.strptime with format %Y-%m-%d followed by .date()
(visits.py line 79): three dash-separated digit groups, the year
exactly 4 digits (the %Y pattern matches exactly four digits), month
and day 1 or 2 digits, forming a valid calendar date with year at
least 1. -/
def parse_date_chars (cs : List Char) : Option (Nat × Nat × Nat) :=
  match split_on_char '-' cs with
  | [ys, ms, ds] =>
      if is_digit_chars ys ∧ ys.length = 4 ∧ is_digit_chars ms ∧
          ms.length ≤ 2 ∧ is_digit_chars ds ∧ ds.length ≤ 2 then
        let y := digits_to_nat ys
        let m := digits_to_nat ms
        let d := digits_to_nat ds
        if 1 ≤ y ∧ 1 ≤ m ∧ m ≤ 12 ∧ 1 ≤ d ∧ d ≤ days_in_month y m then
          some (y, m, d)
        else none
      else none
  | _ => none

/-- Day number of a proleptic Gregorian date, the arithmetic behind
the Python date ordinal (up to a fixed epoch shift); dates in the
store are these day numbers. -/
def days_from_civil (y m d : Nat) : Int :=
  let yy := if m ≤ 2 then y - 1 else y
  let era := yy / 400
  let yoe := yy % 400
  let mp := (m + 9) % 12
  let doy := (153 * mp + 2) / 5 + d - 1
  let doe := yoe * 365 + yoe / 4 - yoe / 100 + doy
  (era * 146097 + doe : Int) - 719468

/-- Parsed start date as a day number. -/
def parse_date_ordinal (cs : List Char) : Option Int :=
  match parse_date_chars cs with
  | some (y, m, d) => some (days_from_civil y m d)
  | none => none

/-- Price cleaning of schedule_visits (visits.py line 89): drop all
dollar signs and commas, then strip whitespace. -/
def clean_price_chars (cs : List Char) : List Char :=
  trim_chars (cs.filter (fun c => !(c == '$') && !(c == ',')))

/-- Price parsing step of schedule_visits (visits.py lines 84-92): an
empty stripped form field leaves the price None with no error; a
Decimal or float conversion failure (InvalidOperation or ValueError,
the latter raised by float on a signaling NaN) leaves the price None
and flags the format error; otherwise the parsed float is bound.  The
first component is the flag, the second the bound price. -/
def schedule_price_step (ps : List Char) : Bool × Option PyFloat :=
  if ps.isEmpty then (false, none)
  else
    match (parse_decimal_chars (clean_price_chars ps)).bind float_of_decimal with
    | none => (true, none)
    | some f => (false, some f)

/-- Validation error list of the schedule_visits POST branch
(visits.py lines 76-95): an invalid date message, an invalid price
format message when the price parse raised, and a missing price
message when the bound price is falsy. -/
def schedule_validation_errors (start_date_str price_str : String) :
    List String :=
  (if (parse_date_chars (trim_chars start_date_str.toList)).isNone then
    ["Invalid start date."] else []) ++
  (if (schedule_price_step (trim_chars price_str.toList)).1 then
    ["Invalid price format."] else []) ++
  (if pyTruthyFloat (schedule_price_step (trim_chars price_str.toList)).2 then
    [] else ["Price is required."])

/-- Row dict of the one-time branch of schedule_visits (visits.py
lines 118-127). -/
def make_one_time_visit (client_id user_id : Nat) (estimate_id : Option Nat)
    (price : ℚ) (d : Int) : Visit :=
  { id := 0
    client_id := client_id
    user_id := user_id
    estimate_id := estimate_id
    scheduled_date := d
    status := "scheduled"
    is_recurring := false
    recurring_frequency := none
    price := some price
    invoice_id := none
    completion_notes := none
    completed_at := none }

/-- Outcome of the schedule_visits POST branch: rejection with
nothing persisted, persistence of a concrete batch of rows, or
persistence of a batch whose price column holds a non-finite float
(Infinity or NaN, reachable only through those literal price
strings); the rational store model does not represent non-finite
numeric column values, so that outcome records the batch size. -/
inductive ScheduleOutcome where
  | rejected
  | persisted (created : List Visit)
  | persistedNonFinite (count : Nat)
deriving DecidableEq, Repr

/-- Embeds the POST branch of schedule_visits (visits.py lines
69-158): when any validation error is raised nothing is persisted;
otherwise the one-time branch inserts a single visit and the
recurring branch inserts the 8 generated visits in one batch. -/
def schedule_visits_post (visits : List Visit) (client_id user_id : Nat)
    (estimate_id : Option Nat) (start_date_str : String)
    (schedule_type recurring_frequency : String) (price_str : String) :
    ScheduleOutcome :=
  if schedule_validation_errors start_date_str price_str ≠ [] then
    ScheduleOutcome.rejected
  else
    match parse_date_ordinal (trim_chars start_date_str.toList),
        (schedule_price_step (trim_chars price_str.toList)).2 with
    | some d, some (PyFloat.finite p) =>
        if schedule_type = "one_time" then
          ScheduleOutcome.persisted
            (visits ++ [make_one_time_visit client_id user_id estimate_id p d])
        else
          ScheduleOutcome.persisted
            (visits ++ generate_recurring_visits client_id user_id
              estimate_id recurring_frequency (some p)
              (get_interval_days recurring_frequency) d 8)
    | some _, some _ =>
        ScheduleOutcome.persistedNonFinite
          (if schedule_type = "one_time" then 1 else 8)
    | _, _ => ScheduleOutcome.rejected

/-- Row of the clients table. -/
structure Client where
  id : Nat
  user_id : Nat
  name : String
  type : String
deriving DecidableEq, Repr

/-- Row of the estimates table. -/
structure Estimate where
  id : Nat
  user_id : Nat
  client_id : Nat
  price_per_visit : ℚ
  frequency : String
  status : String
  accepted_at : Option Int
  accept_token : Option String
deriving DecidableEq, Repr

/-- Row of the invoices table. -/
structure Invoice where
  id : Nat
  user_id : Nat
  client_id : Nat
  invoice_number : Option String
  subtotal : ℚ
  total : ℚ
  status : String
  created_at : Int
deriving DecidableEq, Repr

/-- Embeds calculate_monthly_rate (estimates.py lines 453-462). -/
def calculate_monthly_rate (price_per_visit : ℚ) (frequency : String) :
    Option ℚ :=
  if frequency = "weekly" then some (price_per_visit * 4.33)
  else if frequency = "biweekly" then some (price_per_visit * 2.17)
  else if frequency = "monthly" then some price_per_visit
  else none

/-- Outcome reported by an estimate acceptance handler. -/
inductive AcceptOutcome where
  | notFound
  | alreadyAccepted
  | accepted
deriving DecidableEq, Repr

/-- Store state and outcome after an acceptance handler runs. -/
structure AcceptResult where
  outcome : AcceptOutcome
  estimates : List Estimate
  clients : List Client
deriving DecidableEq, Repr

/-- Updates shared by accept_estimate (estimates.py lines 144-159) and
confirm_accept_estimate (lines 434-448): set the estimate status and
timestamp by estimate id, and flip the linked client to type client
only where its type is currently prospect. -/
def apply_accept_updates (estimates : List Estimate) (clients : List Client)
    (estimate_id linked_client_id : Nat) (now : Int) :
    List Estimate × List Client :=
  (estimates.map (fun x =>
      if x.id = estimate_id then
        { x with status := "accepted", accepted_at := some now }
      else x),
   clients.map (fun c =>
      if c.id = linked_client_id ∧ c.type = "prospect" then
        { c with type := "client" }
      else c))

/-- Embeds accept_estimate (estimates.py lines 120-170): owner-side
acceptance; fetch by estimate id and owner, report an informational
no-op when already accepted, otherwise apply the acceptance
updates. -/
def accept_estimate (estimates : List Estimate) (clients : List Client)
    (user_id estimate_id : Nat) (now : Int) : AcceptResult :=
  match (estimates.filter (fun e =>
      e.id == estimate_id && e.user_id == user_id)).head? with
  | none => ⟨AcceptOutcome.notFound, estimates, clients⟩
  | some e =>
      if e.status = "accepted" then
        ⟨AcceptOutcome.alreadyAccepted, estimates, clients⟩
      else
        let updated := apply_accept_updates estimates clients estimate_id
          e.client_id now
        ⟨AcceptOutcome.accepted, updated.1, updated.2⟩

/-- Embeds confirm_accept_estimate (estimates.py lines 417-448):
public-token acceptance; fetch by estimate id and token, report a
no-op when already accepted, otherwise apply the same acceptance
updates. -/
def confirm_accept_estimate (estimates : List Estimate) (clients : List Client)
    (estimate_id : Nat) (token : String) (now : Int) : AcceptResult :=
  match (estimates.filter (fun e =>
      e.id == estimate_id && e.accept_token == some token)).head? with
  | none => ⟨AcceptOutcome.notFound, estimates, clients⟩
  | some e =>
      if e.status = "accepted" then
        ⟨AcceptOutcome.alreadyAccepted, estimates, clients⟩
      else
        let updated := apply_accept_updates estimates clients estimate_id
          e.client_id now
        ⟨AcceptOutcome.accepted, updated.1, updated.2⟩

/-- Zero padding of f-string format 04d applied by
generate_invoice_number. -/
def format_int_04 (n : Int) : String :=
  if n < 0 then
    let s := toString n.natAbs
    "-" ++ String.mk (List.replicate (3 - s.length) '0') ++ s
  else
    let s := toString n.toNat
    String.mk (List.replicate (4 - s.length) '0') ++ s

/-- Number extraction of generate_invoice_number (invoices.py line
425): split on dashes, take the part at index 1 (an absent part is the
caught IndexError), parse it as an integer. -/
def extract_invoice_num (s : String) : Option Int :=
  match (split_on_char '-' s.toList).get? 1 with
  | some part => parse_int_py part
  | none => none

/-- Embeds generate_invoice_number (invoices.py lines 411-430): read
the most recently created invoice of the business, increment the
number after the INV dash prefix and re-pad it, falling back to
INV-0001 when there is none or parsing fails. -/
def generate_invoice_number (invoices : List Invoice) (user_id : Nat) :
    String :=
  match (sort_desc_by (fun i => i.created_at)
      (invoices.filter (fun i => i.user_id == user_id))).head? with
  | some inv =>
      match inv.invoice_number with
      | some s =>
          if s ≠ "" then
            match extract_invoice_num s with
            | some n => "INV-" ++ format_int_04 (n + 1)
            | none => "INV-0001"
          else "INV-0001"
      | none => "INV-0001"
  | none => "INV-0001"

/-- Relational expand of the estimates reference on a visits row, used
by the invoice queries selecting estimates price_per_visit alongside
each visit. -/
def lookup_estimate (estimates : List Estimate) (estimate_id : Option Nat) :
    Option Estimate :=
  match estimate_id with
  | none => none
  | some eid => (estimates.filter (fun e => e.id == eid)).head?

/-- Embeds get_visit_price (invoices.py lines 13-21): the own price of
the visit when set, else the truthy price_per_visit of the expanded
estimate, else 0. -/
def get_visit_price (visit : Visit) (estimates : List Estimate) : ℚ :=
  match visit.price with
  | some p => p
  | none =>
      match lookup_estimate estimates visit.estimate_id with
      | some e => if e.price_per_visit = 0 then 0 else e.price_per_visit
      | none => 0

/-- Subtotal computed by create_invoice (invoices.py line 93): sum of
the per-visit prices of the selected visits. -/
def invoice_subtotal (selected : List Visit) (estimates : List Estimate) : ℚ :=
  (selected.map (fun v => get_visit_price v estimates)).sum

/-- Subtotal and total stored by create_invoice (invoices.py lines
93-106): the total equals the subtotal, no tax logic. -/
def invoice_totals (selected : List Visit) (estimates : List Estimate) :
    ℚ × ℚ :=
  let subtotal := invoice_subtotal selected estimates
  (subtotal, subtotal)

/-- Embeds view_invoice (invoices.py lines 135-175): fetch the invoice
by id and owner; the follow-up visits query filters only on the
invoice id column (source lines 156-161 carry no owner filter) and
orders by date ascending. -/
def view_invoice (invoices : List Invoice) (visits : List Visit)
    (user_id invoice_id : Nat) : Option (Invoice × List Visit) :=
  match (invoices.filter (fun i =>
      i.id == invoice_id && i.user_id == user_id)).head? with
  | none => none
  | some inv =>
      some (inv, sort_desc_by (fun v => -v.scheduled_date)
        (visits.filter (fun v => v.invoice_id == some invoice_id)))

/-- Concrete future scheduled recurring visit used by witnesses. -/
def demo_visit (i : Nat) (d : Int) (p : Option ℚ) : Visit :=
  { id := i, client_id := 1, user_id := 1, estimate_id := none,
    scheduled_date := d, status := "scheduled", is_recurring := true,
    recurring_frequency := some "weekly", price := p, invoice_id := none,
    completion_notes := none, completed_at := none }

/-- Concrete store with one future scheduled recurring visit. -/
def demo_store_one : List Visit := [demo_visit 1 100 (some 50)]

/-- Concrete store with eight future scheduled recurring visits. -/
def demo_store_eight : List Visit :=
  [demo_visit 1 100 (some 50), demo_visit 2 107 (some 50),
   demo_visit 3 114 (some 50), demo_visit 4 121 (some 50),
   demo_visit 5 128 (some 50), demo_visit 6 135 (some 50),
   demo_visit 7 142 (some 50), demo_visit 8 149 (some 50)]

/-- Concrete one-time visit used by witnesses. -/
def demo_one_time : Visit := make_one_time_visit 1 1 none 50 100

/-- Concrete invoice whose number is INV-0037. -/
def demo_invoice : Invoice :=
  { id := 1, user_id := 1, client_id := 1, invoice_number := some "INV-0037",
    subtotal := 0, total := 0, status := "draft", created_at := 5 }

/-- Concrete prospect client. -/
def demo_client : Client :=
  { id := 1, user_id := 1, name := "Pat", type := "prospect" }

/-- Concrete estimate in status sent with a public token. -/
def demo_estimate_sent : Estimate :=
  { id := 1, user_id := 1, client_id := 1, price_per_visit := 120,
    frequency := "weekly", status := "sent", accepted_at := none,
    accept_token := some "tok" }

/-- Concrete estimate already accepted. -/
def demo_estimate_accepted : Estimate :=
  { id := 1, user_id := 1, client_id := 1, price_per_visit := 120,
    frequency := "weekly", status := "accepted", accepted_at := some 3,
    accept_token := some "tok" }

/-- Concrete invoice owned by business 10. -/
def demo_invoice_b10 : Invoice :=
  { id := 1, user_id := 10, client_id := 1, invoice_number := some "INV-0001",
    subtotal := 0, total := 0, status := "draft", created_at := 5 }

/-- Concrete visit owned by business 20 but linked to invoice 1. -/
def demo_visit_b20 : Visit :=
  { id := 7, client_id := 2, user_id := 20, estimate_id := none,
    scheduled_date := 100, status := "completed", is_recurring := false,
    recurring_frequency := none, price := some 80, invoice_id := some 1,
    completion_notes := none, completed_at := some 90 }

/-- Concrete visit owned by business 10 and linked to invoice 1. -/
def demo_visit_b10 : Visit :=
  { id := 8, client_id := 1, user_id := 10, estimate_id := none,
    scheduled_date := 100, status := "completed", is_recurring := false,
    recurring_frequency := none, price := some 80, invoice_id := some 1,
    completion_notes := none, completed_at := some 90 }

/-- Concrete completed visit with no own price referencing estimate 1. -/
def demo_visit_no_price : Visit :=
  { id := 9, client_id := 1, user_id := 1, estimate_id := some 1,
    scheduled_date := 100, status := "completed", is_recurring := false,
    recurring_frequency := none, price := none, invoice_id := none,
    completion_notes := none, completed_at := some 90 }

theorem mem_insert_desc_by (key : α → Int) (a x : α) (l : List α) :
    x ∈ insert_desc_by key a l ↔ x = a ∨ x ∈ l := by
  induction l with
  | nil => simp [insert_desc_by]
  | cons b l ih =>
      by_cases h : key b ≤ key a
      · simp [insert_desc_by, h]
      · simp [insert_desc_by, h, ih]
        tauto

theorem length_insert_desc_by (key : α → Int) (a : α) (l : List α) :
    (insert_desc_by key a l).length = l.length + 1 := by
  induction l with
  | nil => rfl
  | cons b l ih =>
      by_cases h : key b ≤ key a
      · simp [insert_desc_by, h]
      · simp [insert_desc_by, h, ih]

theorem length_sort_desc_by (key : α → Int) (l : List α) :
    (sort_desc_by key l).length = l.length := by
  induction l with
  | nil => rfl
  | cons a l ih => simp [sort_desc_by, length_insert_desc_by, ih]

theorem mem_sort_desc_by (key : α → Int) (x : α) (l : List α) :
    x ∈ sort_desc_by key l ↔ x ∈ l := by
  induction l with
  | nil => simp [sort_desc_by]
  | cons a l ih => simp [sort_desc_by, mem_insert_desc_by, ih]

theorem sort_desc_by_eq_nil (key : α → Int) (l : List α) :
    sort_desc_by key l = [] ↔ l = [] := by
  cases l with
  | nil => simp [sort_desc_by]
  | cons a l =>
      simp only [sort_desc_by]
      constructor
      · intro h
        have : a ∈ insert_desc_by key a (sort_desc_by key l) :=
          (mem_insert_desc_by key a a _).mpr (Or.inl rfl)
        rw [h] at this
        cases this
      · intro h
        cases h

theorem head?_sort_desc_by_max (key : α → Int) (l : List α) :
    ∀ a, (sort_desc_by key l).head? = some a →
      a ∈ l ∧ ∀ x ∈ l, key x ≤ key a := by
  induction l with
  | nil => intro a h; cases h
  | cons b l ih =>
      intro a h
      simp only [sort_desc_by] at h
      cases hs : sort_desc_by key l with
      | nil =>
          rw [hs] at h
          simp only [insert_desc_by, List.head?] at h
          have hb : a = b := by cases h; rfl
          have hl : l = [] := (sort_desc_by_eq_nil key l).mp hs
          subst hb hl
          refine ⟨List.mem_cons_self _ _, ?_⟩
          intro x hx
          rcases List.mem_cons.mp hx with h1 | h1
          · subst h1; exact le_refl _
          · cases h1
      | cons c t =>
          rw [hs] at h
          have hc := ih c (by rw [hs]; rfl)
          by_cases hk : key c ≤ key b
          · simp only [insert_desc_by, hk, if_pos, List.head?] at h
            have hb : a = b := by cases h; rfl
            subst hb
            refine ⟨List.mem_cons_self _ _, ?_⟩
            intro x hx
            rcases List.mem_cons.mp hx with h1 | h1
            · subst h1; exact le_refl _
            · exact le_trans (hc.2 x h1) hk
          · simp only [insert_desc_by, hk, if_neg, not_false_iff, List.head?] at h
            have hb : a = c := by cases h; rfl
            subst hb
            refine ⟨List.mem_cons_of_mem _ hc.1, ?_⟩
            intro x hx
            rcases List.mem_cons.mp hx with h1 | h1
            · subst h1; exact le_of_not_le hk
            · exact hc.2 x h1

theorem length_generate_recurring_visits (client_id user_id : Nat)
    (estimate_id : Option Nat) (frequency : String) (price : Option ℚ)
    (interval : Nat) (current : Int) (fuel : Nat) :
    (generate_recurring_visits client_id user_id estimate_id frequency price
      interval current fuel).length = fuel := by
  induction fuel generalizing current with
  | zero => rfl
  | succ n ih => simp [generate_recurring_visits, ih]

theorem mem_generate_recurring_visits (client_id user_id : Nat)
    (estimate_id : Option Nat) (frequency : String) (price : Option ℚ)
    (interval : Nat) (current : Int) (fuel : Nat) (v : Visit)
    (hv : v ∈ generate_recurring_visits client_id user_id estimate_id frequency
      price interval current fuel) :
    v.client_id = client_id ∧ v.user_id = user_id ∧
      v.estimate_id = estimate_id ∧ v.status = "scheduled" ∧
      v.is_recurring = true ∧ v.recurring_frequency = some frequency ∧
      v.price = price ∧ current ≤ v.scheduled_date := by
  induction fuel generalizing current with
  | zero => cases hv
  | succ n ih =>
      rcases List.mem_cons.mp hv with h | h
      · subst h
        refine ⟨rfl, rfl, rfl, rfl, rfl, rfl, rfl, le_refl _⟩
      · have := ih (current + interval) h
        refine ⟨this.1, this.2.1, this.2.2.1, this.2.2.2.1, this.2.2.2.2.1,
          this.2.2.2.2.2.1, this.2.2.2.2.2.2.1, ?_⟩
        have hle : current ≤ current + (interval : Int) := by
          have : (0 : Int) ≤ (interval : Int) := Int.ofNat_nonneg interval
          omega
        exact le_trans hle this.2.2.2.2.2.2.2

theorem get?_generate_recurring_visits (client_id user_id : Nat)
    (estimate_id : Option Nat) (frequency : String) (price : Option ℚ)
    (interval : Nat) (current : Int) (fuel i : Nat) (hi : i < fuel) :
    (generate_recurring_visits client_id user_id estimate_id frequency price
      interval current fuel).get? i =
      some (make_recurring_visit client_id user_id estimate_id frequency price
        (current + i * interval)) := by
  induction fuel generalizing current i with
  | zero => cases hi
  | succ n ih =>
      cases i with
      | zero =>
          simp [generate_recurring_visits]
      | succ j =>
          have hj : j < n := Nat.lt_of_succ_lt_succ hi
          simp only [generate_recurring_visits, List.get?]
          rw [ih (current + interval) j hj]
          congr 2
          push_cast
          ring

/-- Every visit generated by the replenishment loop passes the
replenishment filter, provided generation starts at or after today. -/
theorem generated_pass_filter (user_id client_id : Nat)
    (estimate_id : Option Nat) (frequency : String) (price : Option ℚ)
    (interval : Nat) (current : Int) (fuel : Nat) (today : Int)
    (hstart : today ≤ current) :
    (generate_recurring_visits client_id user_id estimate_id frequency price
      interval current fuel).filter
        (is_future_scheduled_recurring user_id client_id today) =
      generate_recurring_visits client_id user_id estimate_id frequency price
        interval current fuel := by
  apply List.filter_eq_self.mpr
  intro v hv
  have h := mem_generate_recurring_visits client_id user_id estimate_id
    frequency price interval current fuel v hv
  simp only [is_future_scheduled_recurring, Bool.and_eq_true, beq_iff_eq,
    decide_eq_true_eq]
  exact ⟨⟨⟨⟨h.1, h.2.1⟩, h.2.2.2.1⟩, h.2.2.2.2.1⟩,
    le_trans hstart h.2.2.2.2.2.2.2⟩

/-- C1. Replenishment after completing a recurring visit: when the
client has fewer than 8 future scheduled recurring visits, the run of
maintain_rolling_window leaves exactly 8 of them; when the count is
already 8 or more, it persists nothing and returns the store
unchanged. -/
theorem maintain_rolling_window_replenishes_to_eight (visits : List Visit)
    (user_id client_id : Nat) (estimate_id : Option Nat) (frequency : String)
    (price : Option ℚ) (today : Int) :
    ((future_scheduled_recurring visits user_id client_id today).length < 8 →
      (future_scheduled_recurring
        (maintain_rolling_window visits user_id client_id estimate_id
          frequency price today) user_id client_id today).length = 8) ∧
    (8 ≤ (future_scheduled_recurring visits user_id client_id today).length →
      maintain_rolling_window visits user_id client_id estimate_id frequency
        price today = visits) := by
  have hlen : (sort_desc_by (fun v => v.scheduled_date)
      (future_scheduled_recurring visits user_id client_id today)).length =
      (future_scheduled_recurring visits user_id client_id today).length :=
    length_sort_desc_by _ _
  constructor
  · intro hlt
    have hnot : ¬ 8 ≤ (sort_desc_by (fun v => v.scheduled_date)
        (future_scheduled_recurring visits user_id client_id today)).length := by
      omega
    unfold maintain_rolling_window
    simp only [hnot, if_false]
    set fut := sort_desc_by (fun v => v.scheduled_date)
      (future_scheduled_recurring visits user_id client_id today) with hfut
    have hstart : today ≤ (match fut.head? with
        | some v => v.scheduled_date
        | none => today) + (get_interval_days frequency : Int) := by
      have hnn : (0 : Int) ≤ (get_interval_days frequency : Int) :=
        Int.ofNat_nonneg _
      cases hh : fut.head? with
      | none =>
          show today ≤ today + (get_interval_days frequency : Int)
          omega
      | some v =>
          have hmem := head?_sort_desc_by_max (fun v => v.scheduled_date)
            (future_scheduled_recurring visits user_id client_id today) v
            (by rw [← hfut]; exact hh)
          have hvmem := hmem.1
          have hpass := (List.mem_filter.mp hvmem).2
          simp only [is_future_scheduled_recurring, Bool.and_eq_true,
            decide_eq_true_eq] at hpass
          have htd := hpass.2
          show today ≤ v.scheduled_date + (get_interval_days frequency : Int)
          omega
    simp only [future_scheduled_recurring, List.filter_append]
    rw [generated_pass_filter _ _ _ _ _ _ _ _ _ hstart]
    rw [← future_scheduled_recurring]
    simp only [List.length_append, length_generate_recurring_visits]
    omega
  · intro hge
    have hyes : 8 ≤ (sort_desc_by (fun v => v.scheduled_date)
        (future_scheduled_recurring visits user_id client_id today)).length := by
      omega
    unfold maintain_rolling_window
    simp only [hyes, if_true]

/-- Witness for C1: on a store with one future visit the replenishment
tops the count up to 8, and on a store with eight it changes
nothing. -/
theorem maintain_rolling_window_replenishes_to_eight_witness :
    ((future_scheduled_recurring demo_store_one 1 1 100).length < 8 ∧
      (future_scheduled_recurring
        (maintain_rolling_window demo_store_one 1 1 none "weekly" (some 50) 100)
        1 1 100).length = 8) ∧
    (8 ≤ (future_scheduled_recurring demo_store_eight 1 1 100).length ∧
      maintain_rolling_window demo_store_eight 1 1 none "weekly" (some 50) 100 =
        demo_store_eight) :=
  ⟨⟨by decide,
    (maintain_rolling_window_replenishes_to_eight demo_store_one 1 1 none
      "weekly" (some 50) 100).1 (by decide)⟩,
   ⟨by decide,
    (maintain_rolling_window_replenishes_to_eight demo_store_eight 1 1 none
      "weekly" (some 50) 100).2 (by decide)⟩⟩

/-- C2. Recurring schedule creation with a recognised frequency:
the intervals are 7, 14 and 30 days, exactly 8 visits are generated
for the insert batch, the visit at index i is dated start plus i
intervals, the dates are strictly increasing, and every visit is
scheduled, recurring, and carries the given frequency and price. -/
theorem schedule_recurring_creates_eight_visits (client_id user_id : Nat)
    (estimate_id : Option Nat) (frequency : String) (price : ℚ) (start : Int)
    (hf : frequency = "weekly" ∨ frequency = "biweekly" ∨
      frequency = "monthly") :
    get_interval_days "weekly" = 7 ∧ get_interval_days "biweekly" = 14 ∧
    get_interval_days "monthly" = 30 ∧
    (generate_recurring_visits client_id user_id estimate_id frequency
      (some price) (get_interval_days frequency) start 8).length = 8 ∧
    (∀ i : Nat, i < 8 →
      ((generate_recurring_visits client_id user_id estimate_id frequency
        (some price) (get_interval_days frequency) start 8).get? i).map
          Visit.scheduled_date =
        some (start + (i : Int) * (get_interval_days frequency : Int))) ∧
    (generate_recurring_visits client_id user_id estimate_id frequency
      (some price) (get_interval_days frequency) start 8).Pairwise
      (fun a b => a.scheduled_date < b.scheduled_date) ∧
    ∀ v ∈ generate_recurring_visits client_id user_id estimate_id frequency
      (some price) (get_interval_days frequency) start 8,
      v.status = "scheduled" ∧ v.is_recurring = true ∧
        v.recurring_frequency = some frequency ∧ v.price = some price := by
  have hI : 0 < get_interval_days frequency := by
    rcases hf with h | h | h <;> simp [h, get_interval_days]
  refine ⟨by decide, by decide, by decide, ?_, ?_, ?_, ?_⟩
  · exact length_generate_recurring_visits _ _ _ _ _ _ _ _
  · intro i hi
    rw [get?_generate_recurring_visits _ _ _ _ _ _ _ _ i hi]
    rfl
  · rw [List.pairwise_iff_get]
    intro i j hij
    have hlen := length_generate_recurring_visits client_id user_id
      estimate_id frequency (some price) (get_interval_days frequency) start 8
    have hi : (i : Nat) < 8 := by omega
    have hj : (j : Nat) < 8 := by omega
    have hgi := get?_generate_recurring_visits client_id user_id estimate_id
      frequency (some price) (get_interval_days frequency) start 8 i hi
    have hgj := get?_generate_recurring_visits client_id user_id estimate_id
      frequency (some price) (get_interval_days frequency) start 8 j hj
    rw [List.get?_eq_get (by omega)] at hgi
    rw [List.get?_eq_get (by omega)] at hgj
    have hgi2 := Option.some.inj hgi
    have hgj2 := Option.some.inj hgj
    have hii : (⟨(i : Nat), by omega⟩ : Fin _) = i := by
      apply Fin.ext; rfl
    have hjj : (⟨(j : Nat), by omega⟩ : Fin _) = j := by
      apply Fin.ext; rfl
    rw [hii] at hgi2
    rw [hjj] at hgj2
    rw [hgi2, hgj2]
    show start + (i : Nat) * (get_interval_days frequency : Int) <
      start + (j : Nat) * (get_interval_days frequency : Int)
    have hij2 : ((i : Nat) : Int) < ((j : Nat) : Int) := by
      exact_mod_cast hij
    have hIpos : (0 : Int) < (get_interval_days frequency : Int) := by
      exact_mod_cast hI
    have := mul_lt_mul_of_pos_right hij2 hIpos
    omega
  · intro v hv
    have h := mem_generate_recurring_visits client_id user_id estimate_id
      frequency (some price) (get_interval_days frequency) start 8 v hv
    exact ⟨h.2.2.2.1, h.2.2.2.2.1, h.2.2.2.2.2.1, h.2.2.2.2.2.2.1⟩

/-- Witness for C2 at frequency weekly, price 120, start 0. -/
theorem schedule_recurring_creates_eight_visits_witness :
    ("weekly" = "weekly" ∨ "weekly" = "biweekly" ∨ "weekly" = "monthly") ∧
    (generate_recurring_visits 1 1 none "weekly" (some 120)
      (get_interval_days "weekly") 0 8).length = 8 ∧
    (generate_recurring_visits 1 1 none "weekly" (some 120)
      (get_interval_days "weekly") 0 8).Pairwise
      (fun a b => a.scheduled_date < b.scheduled_date) :=
  ⟨Or.inl rfl,
   (schedule_recurring_creates_eight_visits 1 1 none "weekly" 120 0
     (Or.inl rfl)).2.2.2.1,
   (schedule_recurring_creates_eight_visits 1 1 none "weekly" 120 0
     (Or.inl rfl)).2.2.2.2.2.1⟩

/-- C3. Completing a visit runs the rolling-window replenishment
exactly when the recurrence flag is true and the frequency column is
truthy; in particular completing a one-time visit (recurrence flag
false) only rewrites the completed row and never adds a visit. -/
theorem complete_visit_triggers_replenishment_iff_recurring
    (visits : List Visit) (user_id visit_id : Nat) (notes : Option String)
    (now today : Int) (visit : Visit)
    (hfind : (visits.filter (fun v =>
      v.id == visit_id && v.user_id == user_id)).head? = some visit) :
    ((visit.is_recurring && pyTruthyStr visit.recurring_frequency) = true →
      complete_visit visits user_id visit_id notes now today =
        maintain_rolling_window
          (mark_visit_completed visits user_id visit_id notes now)
          user_id visit.client_id visit.estimate_id
          (visit.recurring_frequency.getD "") visit.price today) ∧
    ((visit.is_recurring && pyTruthyStr visit.recurring_frequency) = false →
      complete_visit visits user_id visit_id notes now today =
        mark_visit_completed visits user_id visit_id notes now) ∧
    (visit.is_recurring = false →
      (complete_visit visits user_id visit_id notes now today).length =
        visits.length) := by
  refine ⟨?_, ?_, ?_⟩
  · intro hc
    unfold complete_visit
    rw [hfind]
    simp only [hc, if_true]
  · intro hc
    unfold complete_visit
    rw [hfind]
    simp only [hc, Bool.false_eq_true, if_false]
  · intro hc
    have hc2 : (visit.is_recurring && pyTruthyStr visit.recurring_frequency) =
        false := by
      rw [hc]; rfl
    unfold complete_visit
    rw [hfind]
    simp only [hc2, Bool.false_eq_true, if_false, mark_visit_completed,
      List.length_map]

/-- C4. When replenishment generates, it only appends: the store is
extended by a batch of new rows, the row at index i is the recurring
row dated anchor plus i+1 intervals with the carry-forward price, the
anchor is the latest date among the existing future visits (today when
none exist), and the carry-forward price is the supplied price or,
when that is absent, the price of the most-recently-dated existing
future visit (none when none exist, never a fabricated zero).  The
zero-price side condition excludes stores unreachable through the
application (a validated price is never zero), where the code would
drop a stored zero price to none. -/
theorem maintain_rolling_window_appends_from_anchor (visits : List Visit)
    (user_id client_id : Nat) (estimate_id : Option Nat) (frequency : String)
    (price : Option ℚ) (today : Int)
    (hlt : (future_scheduled_recurring visits user_id client_id today).length < 8)
    (hnz : price = none →
      ∀ v ∈ future_scheduled_recurring visits user_id client_id today,
        v.price ≠ some 0) :
    ∃ (anchor : Int) (carry : Option ℚ) (created : List Visit),
      maintain_rolling_window visits user_id client_id estimate_id frequency
        price today = visits ++ created ∧
      created.length =
        8 - (future_scheduled_recurring visits user_id client_id today).length ∧
      (∀ i : Nat, i < created.length →
        created.get? i = some (make_recurring_visit client_id user_id
          estimate_id frequency carry
          (anchor + ((i : Int) + 1) * (get_interval_days frequency : Int)))) ∧
      (∀ v ∈ created, v.price = carry) ∧
      ((future_scheduled_recurring visits user_id client_id today = [] ∧
          anchor = today ∧ carry = price) ∨
        (∃ w ∈ future_scheduled_recurring visits user_id client_id today,
          anchor = w.scheduled_date ∧
          (∀ x ∈ future_scheduled_recurring visits user_id client_id today,
            x.scheduled_date ≤ w.scheduled_date) ∧
          carry = (if price.isNone then w.price else price))) := by
  have hlen : (sort_desc_by (fun v => v.scheduled_date)
      (future_scheduled_recurring visits user_id client_id today)).length =
      (future_scheduled_recurring visits user_id client_id today).length :=
    length_sort_desc_by _ _
  have hnot : ¬ 8 ≤ (sort_desc_by (fun v => v.scheduled_date)
      (future_scheduled_recurring visits user_id client_id today)).length := by
    omega
  unfold maintain_rolling_window
  simp only [hnot, if_false]
  cases hh : (sort_desc_by (fun v => v.scheduled_date)
      (future_scheduled_recurring visits user_id client_id today)).head? with
  | none =>
      have hfut0 : future_scheduled_recurring visits user_id client_id today =
          [] := by
        have := List.head?_eq_none_iff.mp hh
        exact (sort_desc_by_eq_nil _ _).mp this
      refine ⟨today, price, _, rfl, ?_, ?_, ?_, Or.inl ⟨hfut0, rfl, rfl⟩⟩
      · rw [length_generate_recurring_visits]
        omega
      · intro i hi
        rw [length_generate_recurring_visits] at hi
        rw [get?_generate_recurring_visits _ _ _ _ _ _ _ _ i hi]
        congr 2
        push_cast
        ring
      · intro v hv
        exact (mem_generate_recurring_visits _ _ _ _ _ _ _ _ v hv).2.2.2.2.2.2.1
  | some w =>
      have hw := head?_sort_desc_by_max (fun v => v.scheduled_date)
        (future_scheduled_recurring visits user_id client_id today) w hh
      have hcarry : (if price.isNone && pyTruthyPrice w.price then w.price
          else price) = (if price.isNone then w.price else price) := by
        cases hp : price with
        | some p => simp
        | none =>
            have hnz2 := hnz hp w hw.1
            cases hwp : w.price with
            | none => simp [pyTruthyPrice]
            | some q =>
                have hq0 : ¬ q = 0 := by
                  intro h
                  apply hnz2
                  rw [hwp, h]
                simp [pyTruthyPrice, hq0]
      refine ⟨w.scheduled_date,
        (if price.isNone && pyTruthyPrice w.price then w.price else price), _,
        rfl, ?_, ?_, ?_, Or.inr ⟨w, hw.1, rfl, hw.2, hcarry⟩⟩
      · rw [length_generate_recurring_visits]
        omega
      · intro i hi
        rw [length_generate_recurring_visits] at hi
        rw [get?_generate_recurring_visits _ _ _ _ _ _ _ _ i hi]
        congr 2
        push_cast
        ring
      · intro v hv
        exact (mem_generate_recurring_visits _ _ _ _ _ _ _ _ v hv).2.2.2.2.2.2.1

/-- Witness for C4: on a concrete store with two future visits and no
supplied price the appended batch exists as described. -/
theorem maintain_rolling_window_appends_from_anchor_witness :
    ((future_scheduled_recurring
        [demo_visit 1 100 (some 50), demo_visit 2 107 (some 60)]
        1 1 100).length < 8) ∧
    ∃ (anchor : Int) (carry : Option ℚ) (created : List Visit),
      maintain_rolling_window
        [demo_visit 1 100 (some 50), demo_visit 2 107 (some 60)]
        1 1 none "weekly" none 100 =
        [demo_visit 1 100 (some 50), demo_visit 2 107 (some 60)] ++ created ∧
      created.length =
        8 - (future_scheduled_recurring
          [demo_visit 1 100 (some 50), demo_visit 2 107 (some 60)]
          1 1 100).length ∧
      (∀ i : Nat, i < created.length →
        created.get? i = some (make_recurring_visit 1 1 none "weekly" carry
          (anchor + ((i : Int) + 1) * (get_interval_days "weekly" : Int)))) ∧
      (∀ v ∈ created, v.price = carry) ∧
      ((future_scheduled_recurring
          [demo_visit 1 100 (some 50), demo_visit 2 107 (some 60)]
          1 1 100 = [] ∧ anchor = 100 ∧ carry = none) ∨
        (∃ w ∈ future_scheduled_recurring
            [demo_visit 1 100 (some 50), demo_visit 2 107 (some 60)] 1 1 100,
          anchor = w.scheduled_date ∧
          (∀ x ∈ future_scheduled_recurring
              [demo_visit 1 100 (some 50), demo_visit 2 107 (some 60)] 1 1 100,
            x.scheduled_date ≤ w.scheduled_date) ∧
          carry = (if (none : Option ℚ).isNone then w.price else none))) :=
  ⟨by decide,
   maintain_rolling_window_appends_from_anchor
     [demo_visit 1 100 (some 50), demo_visit 2 107 (some 60)]
     1 1 none "weekly" none 100 (by decide)
     (by intro _ v hv; fin_cases hv <;> decide)⟩

/-- Witness for C3: completing a concrete one-time visit leaves the
store length unchanged. -/
theorem complete_visit_triggers_replenishment_iff_recurring_witness :
    (([demo_one_time].filter (fun v =>
      v.id == 0 && v.user_id == 1)).head? = some demo_one_time ∧
      demo_one_time.is_recurring = false) ∧
    (complete_visit [demo_one_time] 1 0 none 200 100).length = 1 :=
  ⟨⟨by decide, by decide⟩,
   (complete_visit_triggers_replenishment_iff_recurring [demo_one_time] 1 0
     none 200 100 demo_one_time (by decide)).2.2 (by decide)⟩

/-- Counterexample to C5: with the valid start date 2024-01-01 and the
price string -50, the price parses to the negative amount -50, which
is not a positive monetary amount, yet validation reports no error and
the operation persists a visit. -/
theorem schedule_visits_accepts_negative_price :
    parse_decimal_chars (clean_price_chars (trim_chars "-50".toList)) =
      some (DecNum.finite (-50)) ∧
    ((-50 : ℚ) < 0) ∧
    schedule_validation_errors "2024-01-01" "-50" = [] ∧
    ∃ created, schedule_visits_post [] 1 1 none "2024-01-01" "one_time"
      "weekly" "-50" = ScheduleOutcome.persisted created ∧
      created.length = 1 :=
  ⟨by decide, by norm_num,
   by decide,
   [make_one_time_visit 1 1 none (-50) (days_from_civil 2024 1 1)],
   by decide, by decide⟩

/-- C5 amended: a create-schedule request is rejected before any
persistence when the start date fails to parse to a valid calendar
date, or when the bound price is missing, unparseable, or reads as
float zero (Python falsiness); a negative price, however, passes this
validation, so the positivity requirement of the claim does not
hold (and a truthy non-finite price such as Infinity or NaN is also
accepted). -/
theorem schedule_visits_rejects_invalid_inputs (visits : List Visit)
    (client_id user_id : Nat) (estimate_id : Option Nat)
    (start_date_str schedule_type recurring_frequency price_str : String)
    (hbad : (parse_date_chars (trim_chars start_date_str.toList)).isNone ∨
      pyTruthyFloat (schedule_price_step (trim_chars price_str.toList)).2 =
        false) :
    schedule_visits_post visits client_id user_id estimate_id start_date_str
      schedule_type recurring_frequency price_str =
      ScheduleOutcome.rejected := by
  have herr : schedule_validation_errors start_date_str price_str ≠ [] := by
    intro h
    unfold schedule_validation_errors at h
    rcases List.append_eq_nil.mp h with ⟨h12, h3⟩
    rcases List.append_eq_nil.mp h12 with ⟨h1, h2⟩
    rcases hbad with hd | hp
    · rw [hd] at h1
      simp at h1
    · rw [hp] at h3
      simp at h3
  unfold schedule_visits_post
  simp [herr]

/-- Witness for the amended C5: a three-digit year, an invalid month
and a zero price are all rejected with nothing persisted. -/
theorem schedule_visits_rejects_invalid_inputs_witness :
    ((parse_date_chars (trim_chars "999-01-01".toList)).isNone ∨
      pyTruthyFloat (schedule_price_step (trim_chars "50".toList)).2 =
        false) ∧
    schedule_visits_post [] 1 1 none "999-01-01" "one_time" "weekly" "50" =
      ScheduleOutcome.rejected ∧
    schedule_visits_post [] 1 1 none "2024-13-01" "one_time" "weekly" "50" =
      ScheduleOutcome.rejected ∧
    schedule_visits_post [] 1 1 none "2024-01-01" "one_time" "weekly" "0" =
      ScheduleOutcome.rejected :=
  ⟨Or.inl (by decide),
   schedule_visits_rejects_invalid_inputs [] 1 1 none "999-01-01" "one_time"
     "weekly" "50" (Or.inl (by decide)),
   schedule_visits_rejects_invalid_inputs [] 1 1 none "2024-13-01" "one_time"
     "weekly" "50" (Or.inl (by decide)),
   schedule_visits_rejects_invalid_inputs [] 1 1 none "2024-01-01" "one_time"
     "weekly" "0" (Or.inr (by decide))⟩

/-- C6. Monthly rate: weekly multiplies the per-visit price by 4.33,
biweekly by 2.17, monthly returns it unchanged, one_time yields none;
at price 100 the results are 433, 217 and 100. -/
theorem calculate_monthly_rate_spec (p : ℚ) :
    calculate_monthly_rate p "weekly" = some (p * 4.33) ∧
    calculate_monthly_rate p "biweekly" = some (p * 2.17) ∧
    calculate_monthly_rate p "monthly" = some p ∧
    calculate_monthly_rate p "one_time" = none ∧
    calculate_monthly_rate 100 "weekly" = some 433 ∧
    calculate_monthly_rate 100 "biweekly" = some 217 ∧
    calculate_monthly_rate 100 "monthly" = some 100 := by
  refine ⟨?_, ?_, ?_, ?_, ?_, ?_, ?_⟩
  · unfold calculate_monthly_rate
    rw [if_pos rfl]
  · unfold calculate_monthly_rate
    rw [if_neg (by decide), if_pos rfl]
  · unfold calculate_monthly_rate
    rw [if_neg (by decide), if_neg (by decide), if_pos rfl]
  · unfold calculate_monthly_rate
    rw [if_neg (by decide), if_neg (by decide), if_neg (by decide)]
  · unfold calculate_monthly_rate
    rw [if_pos rfl]
    norm_num
  · unfold calculate_monthly_rate
    rw [if_neg (by decide), if_pos rfl]
    norm_num
  · unfold calculate_monthly_rate
    rw [if_neg (by decide), if_neg (by decide), if_pos rfl]

/-- C7. Invoice numbering: with no prior invoice for the business, or
an absent, empty or unparseable prior number, the next number is
INV-0001; with a prior number whose dash-separated part at index 1
parses to n, the next number is INV followed by n+1 zero-padded to 4
digits; INV-0037 parses to 37 and 38 pads to 0038. -/
theorem generate_invoice_number_spec (invoices : List Invoice)
    (user_id : Nat) (last : Option Invoice)
    (hhead : (sort_desc_by (fun i => i.created_at)
      (invoices.filter (fun i => i.user_id == user_id))).head? = last) :
    (last = none → generate_invoice_number invoices user_id = "INV-0001") ∧
    (∀ inv, last = some inv → inv.invoice_number = none →
      generate_invoice_number invoices user_id = "INV-0001") ∧
    (∀ inv, last = some inv → inv.invoice_number = some "" →
      generate_invoice_number invoices user_id = "INV-0001") ∧
    (∀ inv s, last = some inv → inv.invoice_number = some s → s ≠ "" →
      extract_invoice_num s = none →
      generate_invoice_number invoices user_id = "INV-0001") ∧
    (∀ inv s n, last = some inv → inv.invoice_number = some s → s ≠ "" →
      extract_invoice_num s = some n →
      generate_invoice_number invoices user_id =
        "INV-" ++ format_int_04 (n + 1)) ∧
    (extract_invoice_num "INV-0037" = some 37 ∧ format_int_04 38 = "0038") := by
  refine ⟨?_, ?_, ?_, ?_, ?_, by decide⟩
  · intro h
    unfold generate_invoice_number
    rw [hhead, h]
  · intro inv h hn
    unfold generate_invoice_number
    rw [hhead, h]
    simp [hn]
  · intro inv h hn
    unfold generate_invoice_number
    rw [hhead, h]
    simp [hn]
  · intro inv s h hn hs hx
    unfold generate_invoice_number
    rw [hhead, h]
    simp [hn, hs, hx]
  · intro inv s n h hn hs hx
    unfold generate_invoice_number
    rw [hhead, h]
    simp [hn, hs, hx]

/-- Witness for C7: on a store whose most recent invoice is numbered
INV-0037 the generated number is INV-0038, and on an empty store it is
INV-0001. -/
theorem generate_invoice_number_spec_witness :
    ((sort_desc_by (fun i => i.created_at)
      ([demo_invoice].filter (fun i => i.user_id == 1))).head? =
        some demo_invoice ∧
      demo_invoice.invoice_number = some "INV-0037" ∧
      extract_invoice_num "INV-0037" = some 37) ∧
    generate_invoice_number [demo_invoice] 1 = "INV-" ++ format_int_04 38 ∧
    generate_invoice_number [demo_invoice] 1 = "INV-0038" ∧
    generate_invoice_number [] 1 = "INV-0001" :=
  ⟨⟨by decide, by decide, by decide⟩,
   (generate_invoice_number_spec [demo_invoice] 1 (some demo_invoice)
     (by decide)).2.2.2.2.1 demo_invoice "INV-0037" 37 rfl (by decide)
     (by decide) (by decide),
   by decide,
   (generate_invoice_number_spec [] 1 none (by decide)).1 rfl⟩

/-- C8. Estimate acceptance, owner route and public-token route: when
the fetched estimate is already accepted both routes return the store
untouched (status, accepted_at and client types unchanged) with a
non-error outcome; a first acceptance returns outcome accepted with
the shared updates applied, and those updates set status accepted and
the accepted_at timestamp on the estimate row and flip a client to
type client only where its id is the linked one and its type is
currently prospect, leaving every other client row unchanged. -/
theorem accept_estimate_idempotent_and_flips_prospect
    (estimates : List Estimate) (clients : List Client)
    (user_id estimate_id : Nat) (token : String) (now : Int)
    (eo ep : Estimate)
    (ho : (estimates.filter (fun e =>
      e.id == estimate_id && e.user_id == user_id)).head? = some eo)
    (hp2 : (estimates.filter (fun e =>
      e.id == estimate_id && e.accept_token == some token)).head? = some ep) :
    (eo.status = "accepted" →
      accept_estimate estimates clients user_id estimate_id now =
        ⟨AcceptOutcome.alreadyAccepted, estimates, clients⟩) ∧
    (ep.status = "accepted" →
      confirm_accept_estimate estimates clients estimate_id token now =
        ⟨AcceptOutcome.alreadyAccepted, estimates, clients⟩) ∧
    (eo.status ≠ "accepted" →
      accept_estimate estimates clients user_id estimate_id now =
        ⟨AcceptOutcome.accepted,
         (apply_accept_updates estimates clients estimate_id eo.client_id
           now).1,
         (apply_accept_updates estimates clients estimate_id eo.client_id
           now).2⟩) ∧
    (ep.status ≠ "accepted" →
      confirm_accept_estimate estimates clients estimate_id token now =
        ⟨AcceptOutcome.accepted,
         (apply_accept_updates estimates clients estimate_id ep.client_id
           now).1,
         (apply_accept_updates estimates clients estimate_id ep.client_id
           now).2⟩) ∧
    (∀ (cid : Nat) (i : Nat) (x : Estimate), estimates.get? i = some x →
      (apply_accept_updates estimates clients estimate_id cid now).1.get? i =
        some (if x.id = estimate_id then
          { x with status := "accepted", accepted_at := some now } else x)) ∧
    (∀ (cid : Nat) (i : Nat) (c : Client), clients.get? i = some c →
      (apply_accept_updates estimates clients estimate_id cid now).2.get? i =
        some (if c.id = cid ∧ c.type = "prospect" then
          { c with type := "client" } else c)) ∧
    (∀ (cid : Nat) (i : Nat) (c : Client), clients.get? i = some c →
      c.type ≠ "prospect" →
      (apply_accept_updates estimates clients estimate_id cid now).2.get? i =
        some c) := by
  refine ⟨?_, ?_, ?_, ?_, ?_, ?_, ?_⟩
  · intro hacc
    unfold accept_estimate
    rw [ho]
    simp [hacc]
  · intro hacc
    unfold confirm_accept_estimate
    rw [hp2]
    simp [hacc]
  · intro hne
    unfold accept_estimate
    rw [ho]
    simp [hne]
  · intro hne
    unfold confirm_accept_estimate
    rw [hp2]
    simp [hne]
  · intro cid i x hx
    unfold apply_accept_updates
    rw [List.get?_map, hx]
    rfl
  · intro cid i c hc
    unfold apply_accept_updates
    rw [List.get?_map, hc]
    rfl
  · intro cid i c hc hnp
    unfold apply_accept_updates
    rw [List.get?_map, hc]
    have : ¬ (c.id = cid ∧ c.type = "prospect") := by
      intro h
      exact hnp h.2
    simp [this]

/-- Witness for C8: re-accepting a concrete accepted estimate is a
no-op on both routes, and a first acceptance flips the concrete
prospect to a client. -/
theorem accept_estimate_idempotent_and_flips_prospect_witness :
    (([demo_estimate_accepted].filter (fun e =>
        e.id == 1 && e.user_id == 1)).head? = some demo_estimate_accepted ∧
      demo_estimate_accepted.status = "accepted") ∧
    accept_estimate [demo_estimate_accepted] [demo_client] 1 1 9 =
      ⟨AcceptOutcome.alreadyAccepted, [demo_estimate_accepted],
       [demo_client]⟩ ∧
    confirm_accept_estimate [demo_estimate_accepted] [demo_client] 1 "tok" 9 =
      ⟨AcceptOutcome.alreadyAccepted, [demo_estimate_accepted],
       [demo_client]⟩ ∧
    accept_estimate [demo_estimate_sent] [demo_client] 1 1 9 =
      ⟨AcceptOutcome.accepted,
       (apply_accept_updates [demo_estimate_sent] [demo_client] 1 1 9).1,
       (apply_accept_updates [demo_estimate_sent] [demo_client] 1 1 9).2⟩ ∧
    (accept_estimate [demo_estimate_sent] [demo_client] 1 1 9).clients =
      [{ id := 1, user_id := 1, name := "Pat", type := "client" }] ∧
    (accept_estimate [demo_estimate_sent] [demo_client] 1 1 9).estimates =
      [{ demo_estimate_sent with
           status := "accepted", accepted_at := some 9 }] :=
  ⟨⟨by decide, by decide⟩,
   (accept_estimate_idempotent_and_flips_prospect [demo_estimate_accepted]
     [demo_client] 1 1 "tok" 9 demo_estimate_accepted demo_estimate_accepted
     (by decide) (by decide)).1 (by decide),
   (accept_estimate_idempotent_and_flips_prospect [demo_estimate_accepted]
     [demo_client] 1 1 "tok" 9 demo_estimate_accepted demo_estimate_accepted
     (by decide) (by decide)).2.1 (by decide),
   (accept_estimate_idempotent_and_flips_prospect [demo_estimate_sent]
     [demo_client] 1 1 "tok" 9 demo_estimate_sent demo_estimate_sent
     (by decide) (by decide)).2.2.1 (by decide),
   by decide, by decide⟩

/-- Head of a list is a member. -/
theorem mem_of_head?_eq_some {l : List α} {a : α} (h : l.head? = some a) :
    a ∈ l := by
  cases l with
  | nil => cases h
  | cons b t =>
      have hb : b = a := by
        simpa using h
      rw [← hb]
      exact List.mem_cons_self _ _

/-- Counterexample to C9: the store holds an invoice of business 10
and a visit of business 20 whose invoice link points at that invoice;
view_invoice for business 10 returns that foreign visit, because the
visits query of view_invoice filters only on the invoice id column
(invoices.py lines 156-161), not on the owner. -/
theorem view_invoice_visits_cross_tenant_leak :
    ∃ inv vs, view_invoice [demo_invoice_b10] [demo_visit_b20] 10 1 =
      some (inv, vs) ∧ ∃ v ∈ vs, v.user_id ≠ 10 :=
  ⟨demo_invoice_b10, [demo_visit_b20], by decide,
   demo_visit_b20, by decide, by decide⟩

/-- C9 amended: primary reads filter on the authenticated owner, but
the visits read of view_invoice and the updates of estimate acceptance
are keyed only on entity ids.  Tenant isolation still holds on stores
satisfying the referential integrity the application maintains: a
visit linked to an invoice shares its owner, estimate ids are unique,
and the client an estimate links to shares its owner.  Then
view_invoice returns only rows of the caller, and acceptance leaves
every estimate and client row of other businesses unchanged. -/
theorem view_invoice_tenant_isolation_under_integrity
    (invoices : List Invoice) (visits : List Visit)
    (estimates : List Estimate) (clients : List Client)
    (user_id invoice_id estimate_id : Nat) (now : Int)
    (hvi : ∀ v ∈ visits, ∀ inv ∈ invoices, v.invoice_id = some inv.id →
      v.user_id = inv.user_id)
    (heids : (estimates.map (fun e => e.id)).Nodup)
    (href : ∀ e ∈ estimates, ∀ c ∈ clients, c.id = e.client_id →
      c.user_id = e.user_id) :
    (∀ inv vs, view_invoice invoices visits user_id invoice_id =
      some (inv, vs) →
      inv.user_id = user_id ∧ ∀ v ∈ vs, v.user_id = user_id) ∧
    (∀ i x, estimates.get? i = some x → x.user_id ≠ user_id →
      (accept_estimate estimates clients user_id estimate_id
        now).estimates.get? i = some x) ∧
    (∀ i c, clients.get? i = some c → c.user_id ≠ user_id →
      (accept_estimate estimates clients user_id estimate_id
        now).clients.get? i = some c) := by
  have hpair : estimates.Pairwise (fun a b => a.id ≠ b.id) := by
    rw [← List.pairwise_map]
    exact heids
  have hsym : Symmetric (fun a b : Estimate => a.id ≠ b.id) := by
    intro x y h heq
    exact h heq.symm
  have hinj : ∀ a ∈ estimates, ∀ b ∈ estimates, a.id = b.id → a = b := by
    intro a ha b hb hab
    by_contra hne
    exact List.Pairwise.forall hsym hpair ha hb hne hab
  refine ⟨?_, ?_, ?_⟩
  · intro inv vs hview
    unfold view_invoice at hview
    cases hfind : (invoices.filter (fun i =>
        i.id == invoice_id && i.user_id == user_id)).head? with
    | none => rw [hfind] at hview; cases hview
    | some inv0 =>
        rw [hfind] at hview
        have hmem := mem_of_head?_eq_some hfind
        have hmf := List.mem_filter.mp hmem
        have hpred := hmf.2
        simp only [Bool.and_eq_true, beq_iff_eq] at hpred
        have hview2 : (inv0, sort_desc_by (fun v => -v.scheduled_date)
            (visits.filter (fun v => v.invoice_id == some invoice_id))) =
            (inv, vs) := by
          exact Option.some.inj hview
        have hinv : inv = inv0 := by
          have := congrArg Prod.fst hview2
          exact this.symm
        have hvs : vs = sort_desc_by (fun v => -v.scheduled_date)
            (visits.filter (fun v => v.invoice_id == some invoice_id)) := by
          have := congrArg Prod.snd hview2
          exact this.symm
        subst hinv
        constructor
        · exact hpred.2
        · intro v hv
          rw [hvs] at hv
          rw [mem_sort_desc_by] at hv
          have hvf := List.mem_filter.mp hv
          have hlink : v.invoice_id = some invoice_id := by
            have := hvf.2
            simpa using this
          have := hvi v hvf.1 inv hmf.1 (by rw [hlink, hpred.1])
          rw [this, hpred.2]
  · intro i x hx hxu
    unfold accept_estimate
    cases hfind : (estimates.filter (fun e =>
        e.id == estimate_id && e.user_id == user_id)).head? with
    | none =>
        exact hx
    | some e =>
        have hmem := mem_of_head?_eq_some hfind
        have hmf := List.mem_filter.mp hmem
        have hpred := hmf.2
        simp only [Bool.and_eq_true, beq_iff_eq] at hpred
        dsimp only
        by_cases hacc : e.status = "accepted"
        · rw [if_pos hacc]
          exact hx
        · rw [if_neg hacc]
          show (apply_accept_updates estimates clients estimate_id e.client_id
            now).1.get? i = some x
          unfold apply_accept_updates
          rw [List.get?_map, hx]
          have hxid : ¬ x.id = estimate_id := by
            intro hxe
            have hxmem : x ∈ estimates := List.get?_mem hx
            have : x = e := hinj x hxmem e hmf.1 (by rw [hxe, hpred.1])
            rw [this] at hxu
            exact hxu hpred.2
          simp [hxid]
  · intro i c hc hcu
    unfold accept_estimate
    cases hfind : (estimates.filter (fun e =>
        e.id == estimate_id && e.user_id == user_id)).head? with
    | none =>
        exact hc
    | some e =>
        have hmem := mem_of_head?_eq_some hfind
        have hmf := List.mem_filter.mp hmem
        have hpred := hmf.2
        simp only [Bool.and_eq_true, beq_iff_eq] at hpred
        dsimp only
        by_cases hacc : e.status = "accepted"
        · rw [if_pos hacc]
          exact hc
        · rw [if_neg hacc]
          show (apply_accept_updates estimates clients estimate_id e.client_id
            now).2.get? i = some c
          unfold apply_accept_updates
          rw [List.get?_map, hc]
          have hcid : ¬ (c.id = e.client_id ∧ c.type = "prospect") := by
            intro hcc
            have hcmem : c ∈ clients := List.get?_mem hc
            have := href e hmf.1 c hcmem hcc.1
            rw [this] at hcu
            exact hcu hpred.2
          simp [hcid]

/-- Witness for the amended C9 on a concrete integrity-respecting
store: the invoice and the returned visit both belong to business
10. -/
theorem view_invoice_tenant_isolation_under_integrity_witness :
    ((∀ v ∈ [demo_visit_b10], ∀ inv ∈ [demo_invoice_b10],
        v.invoice_id = some inv.id → v.user_id = inv.user_id) ∧
      (([demo_estimate_sent].map (fun e => e.id)).Nodup) ∧
      (∀ e ∈ [demo_estimate_sent], ∀ c ∈ [demo_client],
        c.id = e.client_id → c.user_id = e.user_id)) ∧
    demo_invoice_b10.user_id = 10 ∧ demo_visit_b10.user_id = 10 :=
  ⟨⟨by decide, by decide, by decide⟩,
   ((view_invoice_tenant_isolation_under_integrity [demo_invoice_b10]
       [demo_visit_b10] [demo_estimate_sent] [demo_client] 10 1 1 9
       (by decide) (by decide) (by decide)).1 demo_invoice_b10
       [demo_visit_b10] (by decide)).1,
   ((view_invoice_tenant_isolation_under_integrity [demo_invoice_b10]
       [demo_visit_b10] [demo_estimate_sent] [demo_client] 10 1 1 9
       (by decide) (by decide) (by decide)).1 demo_invoice_b10
       [demo_visit_b10] (by decide)).2 demo_visit_b10 (by decide)⟩

/-- C10. Per-visit invoice pricing: the price placed on an invoice
line is the own price of the visit when set, else the price_per_visit
of the expanded originating estimate when that expand is present, else
exactly 0 (never a rejection); the invoice subtotal is the sum of
these prices over the selected visits and the total equals the
subtotal. -/
theorem get_visit_price_fallback_and_totals (visit : Visit)
    (estimates : List Estimate) (selected : List Visit) :
    (∀ p, visit.price = some p → get_visit_price visit estimates = p) ∧
    (∀ e, visit.price = none →
      lookup_estimate estimates visit.estimate_id = some e →
      get_visit_price visit estimates = e.price_per_visit) ∧
    (visit.price = none → lookup_estimate estimates visit.estimate_id = none →
      get_visit_price visit estimates = 0) ∧
    (invoice_totals selected estimates).1 =
      (selected.map (fun v => get_visit_price v estimates)).sum ∧
    (invoice_totals selected estimates).2 =
      (invoice_totals selected estimates).1 := by
  refine ⟨?_, ?_, ?_, rfl, rfl⟩
  · intro p hp
    unfold get_visit_price
    rw [hp]
  · intro e hp he
    unfold get_visit_price
    rw [hp, he]
    by_cases h0 : e.price_per_visit = 0
    · simp [h0]
    · simp [h0]
  · intro hp he
    unfold get_visit_price
    rw [hp, he]

/-- Witness for C10: a visit with its own price 80, a priceless visit
falling back to the estimate price 120, a fully priceless visit
contributing 0, and the resulting subtotal 200 with total equal to
subtotal. -/
theorem get_visit_price_fallback_and_totals_witness :
    (demo_visit_b10.price = some 80 ∧ demo_visit_no_price.price = none ∧
      lookup_estimate [demo_estimate_sent] demo_visit_no_price.estimate_id =
        some demo_estimate_sent ∧
      lookup_estimate [] demo_visit_no_price.estimate_id = none) ∧
    get_visit_price demo_visit_b10 [demo_estimate_sent] = 80 ∧
    get_visit_price demo_visit_no_price [demo_estimate_sent] = 120 ∧
    get_visit_price demo_visit_no_price [] = 0 ∧
    (invoice_totals [demo_visit_b10, demo_visit_no_price]
      [demo_estimate_sent]).1 = 200 ∧
    (invoice_totals [demo_visit_b10, demo_visit_no_price]
      [demo_estimate_sent]).2 =
      (invoice_totals [demo_visit_b10, demo_visit_no_price]
        [demo_estimate_sent]).1 :=
  ⟨⟨by decide, by decide, by decide, by decide⟩,
   (get_visit_price_fallback_and_totals demo_visit_b10 [demo_estimate_sent]
     []).1 80 rfl,
   (get_visit_price_fallback_and_totals demo_visit_no_price
     [demo_estimate_sent] []).2.1 demo_estimate_sent rfl (by decide),
   (get_visit_price_fallback_and_totals demo_visit_no_price [] []).2.2.1 rfl
     (by decide),
   by
     simp [invoice_totals, invoice_subtotal, get_visit_price,
       lookup_estimate, demo_visit_b10, demo_visit_no_price,
       demo_estimate_sent]
     norm_num,
   (get_visit_price_fallback_and_totals demo_visit_b10 [demo_estimate_sent]
     [demo_visit_b10, demo_visit_no_price]).2.2.2.2⟩

end ClientSite
